import Mathlib

/-!
Verification of the schema layer of jod35/fastapi-beyond-crud-docs.

The repository's visible source is src/src/books/schemas.py: three pydantic
BaseModel declarations (BookSchema, BookUpdateSchema, BookCreateModel), each a
list of annotated fields.  The field lists and their declared types below are
transcribed from that file.  The validation engine itself (pydantic's
construct-and-validate and serialize operations) is library code that is not
part of the repository source; the definitions marked so are modelled from the
specification's contract for it: every required field must be present and
convertible to its declared type, conversion normalizes values (date-time text
is parsed into a date-time value), failure produces a ValidationError that
enumerates every offending field, serialization produces a plain mapping of
the field values, unknown input keys are ignored, and the schema classes
declare no immutability configuration, so attribute assignment on a
constructed record follows the default: it succeeds and overwrites the value.
-/

set_option autoImplicit false

namespace BookSchemas

/-- Calendar date-time value, the normalized form of a published_date field. -/
structure DateTime where
  year : Nat
  month : Nat
  day : Nat
  hour : Nat
  minute : Nat
  second : Nat
deriving Repr, DecidableEq

/-- Field values: the payload values appearing in input mappings and in
validated records (integers, text, date-time values). -/
inductive Value where
  | int (n : Int)
  | str (s : String)
  | dt (d : DateTime)
deriving Repr, DecidableEq

/-- Declared field types of the schema classes: int, str, datetime. -/
inductive FieldType where
  | int
  | str
  | datetime
deriving Repr, DecidableEq

/-- Kind of a per-field validation error: the field is missing from the
input, or its value is not convertible to the declared type. -/
inductive ErrKind where
  | missing
  | invalid
deriving Repr, DecidableEq

/-- Numeric value of a list of decimal digit characters. -/
def digitsToNat (l : List Char) : Nat :=
  l.foldl (fun a c => a * 10 + (c.toNat - 48)) 0

/-- Modelled from the spec: integer conversion of text input, as the
validation layer applies to an int field given a string (an optional leading
minus sign followed by decimal digits). -/
def parseInt (s : String) : Option Int :=
  match s.data with
  | [] => none
  | '-' :: rest =>
      if !rest.isEmpty && rest.all Char.isDigit then
        some (-(digitsToNat rest : Int))
      else none
  | l =>
      if l.all Char.isDigit then some ((digitsToNat l : Int)) else none

/-- Builds a date-time value from its digit characters, checking basic
calendar bounds. -/
def mkDateTime (y1 y2 y3 y4 m1 m2 d1 d2 h1 h2 n1 n2 s1 s2 : Char) :
    Option DateTime :=
  if ([y1, y2, y3, y4, m1, m2, d1, d2, h1, h2, n1, n2, s1, s2].all Char.isDigit) then
    let y := digitsToNat [y1, y2, y3, y4]
    let mo := digitsToNat [m1, m2]
    let d := digitsToNat [d1, d2]
    let h := digitsToNat [h1, h2]
    let mi := digitsToNat [n1, n2]
    let se := digitsToNat [s1, s2]
    if 1 ≤ mo ∧ mo ≤ 12 ∧ 1 ≤ d ∧ d ≤ 31 ∧ h ≤ 23 ∧ mi ≤ 59 ∧ se ≤ 59 then
      some ⟨y, mo, d, h, mi, se⟩
    else none
  else none

/-- Modelled from the spec: date-time conversion of text input, applied to a
datetime field given a string.  A date YYYY-MM-DD normalizes to that day at
time 00:00:00; a full YYYY-MM-DDTHH:MM:SS stamp keeps its time of day. -/
def parseDateTime (s : String) : Option DateTime :=
  match s.data with
  | [y1, y2, y3, y4, '-', m1, m2, '-', d1, d2] =>
      mkDateTime y1 y2 y3 y4 m1 m2 d1 d2 '0' '0' '0' '0' '0' '0'
  | [y1, y2, y3, y4, '-', m1, m2, '-', d1, d2, 'T', h1, h2, ':', n1, n2, ':', s1, s2] =>
      mkDateTime y1 y2 y3 y4 m1 m2 d1 d2 h1 h2 n1 n2 s1 s2
  | _ => none

/-- Modelled from the spec: conversion of one input value to a declared field
type.  An int field accepts an integer or integer text; a str field accepts
text; a datetime field accepts a date-time value or date-time text.  Returns
the normalized value, or none if the input is not convertible.  Numeric
timestamp input for datetime fields is outside the modelled fragment and
treated as not convertible. -/
def coerce : FieldType → Value → Option Value
  | FieldType.int, Value.int n => some (Value.int n)
  | FieldType.int, Value.str s => (parseInt s).map Value.int
  | FieldType.str, Value.str s => some (Value.str s)
  | FieldType.datetime, Value.dt d => some (Value.dt d)
  | FieldType.datetime, Value.str s => (parseDateTime s).map Value.dt
  | _, _ => none

/-- First value bound to a field name in a mapping (association list). -/
def lookupField {α : Type} (f : String) : List (String × α) → Option α
  | [] => none
  | p :: rest => if p.1 = f then some p.2 else lookupField f rest

/-- Modelled from the spec: one validation pass over the declared fields of a
shape.  For each declared field in declaration order, looks it up in the
input mapping and converts it; accumulates the normalized fields and the
per-field errors (missing or invalid), so that every offending field is
reported.  Input keys that are not declared fields are ignored. -/
def validateFields : List (String × FieldType) → List (String × Value) →
    List (String × Value) × List (String × ErrKind)
  | [], _ => ([], [])
  | (f, t) :: rest, m =>
    match lookupField f m with
    | none =>
        ((validateFields rest m).1, (f, ErrKind.missing) :: (validateFields rest m).2)
    | some v =>
        match coerce t v with
        | none =>
            ((validateFields rest m).1, (f, ErrKind.invalid) :: (validateFields rest m).2)
        | some w =>
            ((f, w) :: (validateFields rest m).1, (validateFields rest m).2)

/-- Modelled from the spec: Construct-and-validate.  Validates an untyped
input mapping against a shape; returns the immutable record of normalized
field values, or a ValidationError carrying every offending field. -/
def model_validate (shape : List (String × FieldType)) (m : List (String × Value)) :
    Except (List (String × ErrKind)) (List (String × Value)) :=
  match validateFields shape m with
  | (vals, []) => Except.ok vals
  | (_, e :: es) => Except.error (e :: es)

/-- Modelled from the spec: Serialize.  Produces the plain mapping of a
record's field values, suitable for transmission. -/
def model_dump (r : List (String × Value)) : List (String × Value) := r

/-- True when the mapping supplies this declared field with a convertible
value. -/
def fieldOk (m : List (String × Value)) (p : String × FieldType) : Bool :=
  match lookupField p.1 m with
  | none => false
  | some v => (coerce p.2 v).isSome

/-- True when the mapping matches the shape's field and type contract: every
declared field is present and convertible to its declared type. -/
def fieldsValid (shape : List (String × FieldType)) (m : List (String × Value)) : Bool :=
  shape.all (fieldOk m)

/-- Type-normalized form of a mapping with respect to a shape, following the
spec's words: each declared field's input value converted to its declared
type, in declaration order, everything else dropped. -/
def normalize (shape : List (String × FieldType)) (m : List (String × Value)) :
    List (String × Value) :=
  shape.filterMap fun p =>
    (lookupField p.1 m).bind fun v => (coerce p.2 v).map fun w => (p.1, w)

/-- Modelled from the spec: attribute assignment on a constructed record.
The schema classes in src/src/books/schemas.py declare no frozen or
immutability configuration, so assignment follows the BaseModel default: it
succeeds and overwrites the stored value of the named field. -/
def setAttr : List (String × Value) → String → Value → List (String × Value)
  | [], _, _ => []
  | p :: rest, f, v => (if p.1 = f then (f, v) else p) :: setAttr rest f v

/-- Field list of class BookSchema (src/src/books/schemas.py lines 4-11). -/
def BookSchema : List (String × FieldType) :=
  [("id", FieldType.int), ("title", FieldType.str), ("author", FieldType.str),
   ("publisher", FieldType.str), ("published_date", FieldType.datetime),
   ("page_count", FieldType.int), ("language", FieldType.str)]

/-- Field list of class BookUpdateSchema (src/src/books/schemas.py lines 13-18). -/
def BookUpdateSchema : List (String × FieldType) :=
  [("title", FieldType.str), ("author", FieldType.str), ("publisher", FieldType.str),
   ("page_count", FieldType.int), ("language", FieldType.str)]

/-- Field list of class BookCreateModel (src/src/books/schemas.py lines 21-27). -/
def BookCreateModel : List (String × FieldType) :=
  [("title", FieldType.str), ("author", FieldType.str), ("isbn", FieldType.str),
   ("description", FieldType.str)]

instance {ε α : Type} [DecidableEq ε] [DecidableEq α] : DecidableEq (Except ε α) :=
  fun a b =>
    match a, b with
    | Except.ok x, Except.ok y =>
        if h : x = y then isTrue (by rw [h])
        else isFalse (by intro hh; cases hh; exact h rfl)
    | Except.error x, Except.error y =>
        if h : x = y then isTrue (by rw [h])
        else isFalse (by intro hh; cases hh; exact h rfl)
    | Except.ok _, Except.error _ => isFalse (by intro hh; cases hh)
    | Except.error _, Except.ok _ => isFalse (by intro hh; cases hh)

/-- Example payload from the spec and the comment block at the end of
src/src/books/schemas.py. -/
def thinkPythonInput : List (String × Value) :=
  [("id", Value.int 1), ("title", Value.str "Think Python"),
   ("author", Value.str "Allen B. Downey"),
   ("publisher", Value.str "O\x27Reilly Media"),
   ("published_date", Value.str "2021-01-01"),
   ("page_count", Value.int 1234), ("language", Value.str "English")]

/-- BookUpdate payload of the spec's failing example: page_count is the
non-numeric text value many. -/
def badUpdateInput : List (String × Value) :=
  [("title", Value.str "X"), ("author", Value.str "Y"),
   ("publisher", Value.str "Z"), ("page_count", Value.str "many"),
   ("language", Value.str "English")]

/-- Book payload with two violations at once: id is missing and page_count is
non-numeric text. -/
def badBookInput : List (String × Value) :=
  [("title", Value.str "X"), ("author", Value.str "Y"),
   ("publisher", Value.str "Z"), ("published_date", Value.str "2021-01-01"),
   ("page_count", Value.str "many"), ("language", Value.str "English")]

/-- Error list produced for badBookInput. -/
def badBookErrs : List (String × ErrKind) :=
  [("id", ErrKind.missing), ("page_count", ErrKind.invalid)]

/-- BookCreate payload of the spec's example. -/
def createInput : List (String × Value) :=
  [("title", Value.str "X"), ("author", Value.str "Y"),
   ("isbn", Value.str "978-0-13-468599-1"), ("description", Value.str "...")]

/-- Valid BookUpdate payload. -/
def updateInput : List (String × Value) :=
  [("title", Value.str "New Title"), ("author", Value.str "New Author"),
   ("publisher", Value.str "New Publisher"), ("page_count", Value.int 200),
   ("language", Value.str "French")]

/-- Book payload whose page_count is the negative integer -5. -/
def negBookInput : List (String × Value) :=
  [("id", Value.int 1), ("title", Value.str "X"), ("author", Value.str "Y"),
   ("publisher", Value.str "Z"), ("published_date", Value.str "2021-01-01"),
   ("page_count", Value.int (-5)), ("language", Value.str "E")]

/-- Book payload parametrized by its page_count value. -/
def bookInputPage (n : Int) : List (String × Value) :=
  [("id", Value.int 1), ("title", Value.str "X"), ("author", Value.str "Y"),
   ("publisher", Value.str "Z"), ("published_date", Value.str "2021-01-01"),
   ("page_count", Value.int n), ("language", Value.str "E")]

/-- BookUpdate payload parametrized by its page_count value. -/
def updateInputPage (n : Int) : List (String × Value) :=
  [("title", Value.str "X"), ("author", Value.str "Y"),
   ("publisher", Value.str "Z"), ("page_count", Value.int n),
   ("language", Value.str "E")]

/-- Extra entries whose keys are not declared by any of the three shapes. -/
def extraInput : List (String × Value) :=
  [("zzz", Value.str "ignored"), ("rating", Value.int 5)]

/-! Shared lemmas about the validation engine. -/

/-- The record half of a validation pass is exactly the type-normalized form
of the input mapping: offending fields are dropped from both. -/
lemma validateFields_fst (shape : List (String × FieldType)) (m : List (String × Value)) :
    (validateFields shape m).1 = normalize shape m := by
  induction shape with
  | nil => rfl
  | cons p rest ih =>
    obtain ⟨f, t⟩ := p
    simp only [normalize] at ih ⊢
    cases h1 : lookupField f m with
    | none => simp [validateFields, List.filterMap_cons, h1, ih]
    | some v =>
        cases h2 : coerce t v with
        | none => simp [validateFields, List.filterMap_cons, h1, h2, ih]
        | some w => simp [validateFields, List.filterMap_cons, h1, h2, ih]

/-- A mapping matching the shape's contract produces no validation errors. -/
lemma fieldsValid_errs (shape : List (String × FieldType)) (m : List (String × Value))
    (h : fieldsValid shape m = true) : (validateFields shape m).2 = [] := by
  induction shape with
  | nil => rfl
  | cons p rest ih =>
    obtain ⟨f, t⟩ := p
    rw [fieldsValid, List.all_cons, Bool.and_eq_true] at h
    obtain ⟨hok, hrest⟩ := h
    cases h1 : lookupField f m with
    | none => simp [fieldOk, h1] at hok
    | some v =>
        cases h2 : coerce t v with
        | none => simp [fieldOk, h1, h2] at hok
        | some w => simp [validateFields, h1, h2, ih hrest]

/-- Validation with an empty error list succeeds with the normalized record. -/
lemma model_validate_ok_of_errs (shape : List (String × FieldType))
    (m : List (String × Value)) (h : (validateFields shape m).2 = []) :
    model_validate shape m = Except.ok (normalize shape m) := by
  have hf := validateFields_fst shape m
  unfold model_validate
  rcases hv : validateFields shape m with ⟨vals, errs⟩
  rw [hv] at h hf
  simp at h hf
  subst h
  simp [hf]

/-- Validation with a nonempty error list fails with exactly that list. -/
lemma model_validate_error_of_errs (shape : List (String × FieldType))
    (m : List (String × Value)) (e : String × ErrKind) (es : List (String × ErrKind))
    (h : (validateFields shape m).2 = e :: es) :
    model_validate shape m = Except.error (e :: es) := by
  unfold model_validate
  rcases hv : validateFields shape m with ⟨vals, errs⟩
  rw [hv] at h
  simp at h
  subst h
  simp

/-- A declared field that is absent from the input is reported missing. -/
lemma missing_mem (shape : List (String × FieldType)) (m : List (String × Value))
    (f : String) (t : FieldType) (hmem : (f, t) ∈ shape)
    (hl : lookupField f m = none) :
    (f, ErrKind.missing) ∈ (validateFields shape m).2 := by
  induction shape with
  | nil => cases hmem
  | cons p rest ih =>
    obtain ⟨g, u⟩ := p
    rcases List.mem_cons.mp hmem with heq | htail
    · rw [Prod.mk.injEq] at heq
      obtain ⟨rfl, rfl⟩ := heq
      simp [validateFields, hl]
    · have hr := ih htail
      cases h1 : lookupField g m with
      | none => simp [validateFields, h1, hr]
      | some v =>
          cases h2 : coerce u v with
          | none => simp [validateFields, h1, h2, hr]
          | some w => simp [validateFields, h1, h2, hr]

/-- A declared field whose input value is not convertible to the declared
type is reported invalid. -/
lemma invalid_mem (shape : List (String × FieldType)) (m : List (String × Value))
    (f : String) (t : FieldType) (v : Value) (hmem : (f, t) ∈ shape)
    (hl : lookupField f m = some v) (hc : coerce t v = none) :
    (f, ErrKind.invalid) ∈ (validateFields shape m).2 := by
  induction shape with
  | nil => cases hmem
  | cons p rest ih =>
    obtain ⟨g, u⟩ := p
    rcases List.mem_cons.mp hmem with heq | htail
    · rw [Prod.mk.injEq] at heq
      obtain ⟨rfl, rfl⟩ := heq
      simp [validateFields, hl, hc]
    · have hr := ih htail
      cases h1 : lookupField g m with
      | none => simp [validateFields, h1, hr]
      | some v2 =>
          cases h2 : coerce u v2 with
          | none => simp [validateFields, h1, h2, hr]
          | some w => simp [validateFields, h1, h2, hr]

/-- Inversion: a successful validation returns the normalized record. -/
lemma model_validate_ok_inv (shape : List (String × FieldType))
    (m : List (String × Value)) (r : List (String × Value))
    (h : model_validate shape m = Except.ok r) : r = normalize shape m := by
  have hf := validateFields_fst shape m
  unfold model_validate at h
  rcases hv : validateFields shape m with ⟨vals, errs⟩
  rw [hv] at h hf
  simp at hf
  cases errs with
  | nil => simp at h; rw [← h, hf]
  | cons e es => simp at h

/-- Inversion: a failed validation reports exactly the accumulated errors. -/
lemma model_validate_error_inv (shape : List (String × FieldType))
    (m : List (String × Value)) (errs : List (String × ErrKind))
    (h : model_validate shape m = Except.error errs) :
    (validateFields shape m).2 = errs := by
  unfold model_validate at h
  rcases hv : validateFields shape m with ⟨vals, es⟩
  rw [hv] at h
  cases es with
  | nil => simp at h
  | cons e es2 => simp at h; simpa using h

/-- Every key of a validated record is a declared field name of the shape. -/
lemma validateFields_keys_subset (shape : List (String × FieldType))
    (m : List (String × Value)) (q : String × Value)
    (hq : q ∈ (validateFields shape m).1) : q.1 ∈ shape.map Prod.fst := by
  induction shape with
  | nil => cases hq
  | cons p rest ih =>
    obtain ⟨f, t⟩ := p
    cases h1 : lookupField f m with
    | none =>
        rw [validateFields] at hq
        simp only [h1] at hq
        simp [ih hq]
    | some v =>
        cases h2 : coerce t v with
        | none =>
            rw [validateFields] at hq
            simp only [h1, h2] at hq
            simp [ih hq]
        | some w =>
            rw [validateFields] at hq
            simp only [h1, h2] at hq
            rcases List.mem_cons.mp hq with heq | htail
            · rw [heq]; simp
            · simp [ih htail]

/-- Every key of a normalized record is a declared field name of the shape. -/
lemma normalize_keys_subset (shape : List (String × FieldType))
    (m : List (String × Value)) (q : String × Value)
    (hq : q ∈ normalize shape m) : q.1 ∈ shape.map Prod.fst := by
  rw [← validateFields_fst] at hq
  exact validateFields_keys_subset shape m q hq

/-- For a mapping matching the contract, the validated record lists exactly
the declared field names, in declaration order. -/
lemma validateFields_keys (shape : List (String × FieldType))
    (m : List (String × Value)) (h : fieldsValid shape m = true) :
    ((validateFields shape m).1).map Prod.fst = shape.map Prod.fst := by
  induction shape with
  | nil => rfl
  | cons p rest ih =>
    obtain ⟨f, t⟩ := p
    rw [fieldsValid, List.all_cons, Bool.and_eq_true] at h
    obtain ⟨hok, hrest⟩ := h
    cases h1 : lookupField f m with
    | none => simp [fieldOk, h1] at hok
    | some v =>
        cases h2 : coerce t v with
        | none => simp [fieldOk, h1, h2] at hok
        | some w => simp [validateFields, h1, h2, ih hrest]

/-- For a mapping matching the contract, the normalized record lists exactly
the declared field names, in declaration order. -/
lemma normalize_keys (shape : List (String × FieldType)) (m : List (String × Value))
    (h : fieldsValid shape m = true) :
    (normalize shape m).map Prod.fst = shape.map Prod.fst := by
  rw [← validateFields_fst]
  exact validateFields_keys shape m h

/-- Lookup misses a mapping none of whose keys is the requested field. -/
lemma lookupField_eq_none {α : Type} (f : String) (r : List (String × α))
    (h : ∀ q ∈ r, q.1 ≠ f) : lookupField f r = none := by
  induction r with
  | nil => rfl
  | cons p rest ih =>
    rw [lookupField, if_neg (h p (List.mem_cons_self p rest))]
    exact ih fun q hq => h q (List.mem_cons_of_mem p hq)

/-- Appending entries whose keys the lookup does not find leaves it
unchanged. -/
lemma lookupField_append {α : Type} (f : String) (m extra : List (String × α))
    (h : lookupField f extra = none) :
    lookupField f (m ++ extra) = lookupField f m := by
  induction m with
  | nil => simpa using h
  | cons p rest ih =>
    by_cases hp : p.1 = f <;> simp [lookupField, hp, ih]

/-- Validation depends on the input mapping only through lookup of the
declared fields. -/
lemma validateFields_congr (shape : List (String × FieldType))
    (m1 m2 : List (String × Value))
    (h : ∀ p ∈ shape, lookupField p.1 m1 = lookupField p.1 m2) :
    validateFields shape m1 = validateFields shape m2 := by
  induction shape with
  | nil => rfl
  | cons p rest ih =>
    obtain ⟨f, t⟩ := p
    have hh := h (f, t) (List.mem_cons_self _ _)
    have ht := ih fun q hq => h q (List.mem_cons_of_mem _ hq)
    simp only [validateFields, hh, ht]

/-! Claim theorems. -/

/-- C1: for every mapping matching a shape's field/type contract (all required
fields present and convertible to their declared types), Construct-and-validate
succeeds, and serializing the resulting record yields the type-normalized form
of the mapping (round-trip law). -/
theorem c1_roundtrip_law (shape : List (String × FieldType)) (m : List (String × Value))
    (h : fieldsValid shape m = true) :
    ∃ r, model_validate shape m = Except.ok r ∧ model_dump r = normalize shape m :=
  ⟨normalize shape m, model_validate_ok_of_errs shape m (fieldsValid_errs shape m h), rfl⟩

/-- C1 witness: the Think Python payload matches the Book contract, validates
and round-trips, and its published_date text 2021-01-01 normalizes to the
date-time value 2021-01-01T00:00:00 with all other field values unchanged. -/
theorem c1_roundtrip_law_witness :
    fieldsValid BookSchema thinkPythonInput = true ∧
    (∃ r, model_validate BookSchema thinkPythonInput = Except.ok r ∧
      model_dump r = normalize BookSchema thinkPythonInput) ∧
    normalize BookSchema thinkPythonInput =
      [("id", Value.int 1), ("title", Value.str "Think Python"),
       ("author", Value.str "Allen B. Downey"),
       ("publisher", Value.str "O\x27Reilly Media"),
       ("published_date", Value.dt ⟨2021, 1, 1, 0, 0, 0⟩),
       ("page_count", Value.int 1234), ("language", Value.str "English")] :=
  ⟨by decide, c1_roundtrip_law BookSchema thinkPythonInput (by decide), by decide⟩

/-- C2: for each of the three shapes, a mapping from which some required field
is absent fails Construct-and-validate with a ValidationError naming that field
as missing (every declared field is required: none has a default). -/
theorem c2_missing_field_error (shape : List (String × FieldType))
    (m : List (String × Value)) (f : String) (t : FieldType)
    (_hs : shape = BookSchema ∨ shape = BookUpdateSchema ∨ shape = BookCreateModel)
    (hmem : (f, t) ∈ shape) (hl : lookupField f m = none) :
    ∃ errs, model_validate shape m = Except.error errs ∧
      (f, ErrKind.missing) ∈ errs := by
  have hm := missing_mem shape m f t hmem hl
  rcases he : (validateFields shape m).2 with _ | ⟨e, es⟩
  · rw [he] at hm; cases hm
  · exact ⟨e :: es, model_validate_error_of_errs shape m e es he, he ▸ hm⟩

/-- C2 witness: the empty mapping is missing the required id field of Book,
and validation fails naming id as missing. -/
theorem c2_missing_field_error_witness :
    ∃ errs, model_validate BookSchema [] = Except.error errs ∧
      ("id", ErrKind.missing) ∈ errs :=
  c2_missing_field_error BookSchema [] "id" FieldType.int (Or.inl rfl)
    (by decide) (by decide)

/-- C3: for each of the three shapes, a mapping in which some field's value is
not convertible to the field's declared type fails Construct-and-validate with
a ValidationError naming that field as invalid. -/
theorem c3_wrong_type_error (shape : List (String × FieldType))
    (m : List (String × Value)) (f : String) (t : FieldType) (v : Value)
    (_hs : shape = BookSchema ∨ shape = BookUpdateSchema ∨ shape = BookCreateModel)
    (hmem : (f, t) ∈ shape) (hl : lookupField f m = some v)
    (hc : coerce t v = none) :
    ∃ errs, model_validate shape m = Except.error errs ∧
      (f, ErrKind.invalid) ∈ errs := by
  have hm := invalid_mem shape m f t v hmem hl hc
  rcases he : (validateFields shape m).2 with _ | ⟨e, es⟩
  · rw [he] at hm; cases hm
  · exact ⟨e :: es, model_validate_error_of_errs shape m e es he, he ▸ hm⟩

/-- C3 witness: the BookUpdate payload with page_count given as the text many
fails validation with page_count cited as invalid. -/
theorem c3_wrong_type_error_witness :
    ∃ errs, model_validate BookUpdateSchema badUpdateInput = Except.error errs ∧
      ("page_count", ErrKind.invalid) ∈ errs :=
  c3_wrong_type_error BookUpdateSchema badUpdateInput "page_count" FieldType.int
    (Value.str "many") (Or.inr (Or.inl rfl)) (by decide) (by decide) (by decide)

/-- C4: when Construct-and-validate fails, the single ValidationError it
raises enumerates every offending field at once: each declared field that is
missing from the input or carries a non-convertible value appears in the
error list. -/
theorem c4_error_enumerates_all (shape : List (String × FieldType))
    (m : List (String × Value)) (errs : List (String × ErrKind))
    (h : model_validate shape m = Except.error errs) (f : String) (t : FieldType)
    (hmem : (f, t) ∈ shape) :
    (lookupField f m = none → (f, ErrKind.missing) ∈ errs) ∧
    (∀ v, lookupField f m = some v → coerce t v = none →
      (f, ErrKind.invalid) ∈ errs) := by
  have he := model_validate_error_inv shape m errs h
  constructor
  · intro hl
    rw [← he]
    exact missing_mem shape m f t hmem hl
  · intro v hl hc
    rw [← he]
    exact invalid_mem shape m f t v hmem hl hc

/-- C4 witness: a Book payload that is at once missing id and has a
non-numeric page_count fails with one error list containing both fields. -/
theorem c4_error_enumerates_all_witness :
    model_validate BookSchema badBookInput = Except.error badBookErrs ∧
    ("id", ErrKind.missing) ∈ badBookErrs ∧
    ("page_count", ErrKind.invalid) ∈ badBookErrs := by
  have h : model_validate BookSchema badBookInput = Except.error badBookErrs := by
    decide
  refine ⟨h, ?_, ?_⟩
  · exact (c4_error_enumerates_all BookSchema badBookInput badBookErrs h "id"
      FieldType.int (by decide)).1 (by decide)
  · exact (c4_error_enumerates_all BookSchema badBookInput badBookErrs h "page_count"
      FieldType.int (by decide)).2 (Value.str "many") (by decide) (by decide)

/-- C5: the Book shape declares exactly the seven fields id (integer), title,
author, publisher (text), published_date (date-time), page_count (integer),
language (text); a mapping supplying convertible values for these fields
validates, and the resulting record carries exactly these field names. -/
theorem c5_book_fields_exact :
    BookSchema =
      [("id", FieldType.int), ("title", FieldType.str), ("author", FieldType.str),
       ("publisher", FieldType.str), ("published_date", FieldType.datetime),
       ("page_count", FieldType.int), ("language", FieldType.str)] ∧
    ∀ m, fieldsValid BookSchema m = true →
      ∃ r, model_validate BookSchema m = Except.ok r ∧
        r.map Prod.fst =
          ["id", "title", "author", "publisher", "published_date",
           "page_count", "language"] := by
  refine ⟨rfl, fun m h => ⟨normalize BookSchema m,
    model_validate_ok_of_errs _ _ (fieldsValid_errs _ _ h), ?_⟩⟩
  rw [normalize_keys BookSchema m h]
  rfl

/-- C5 witness: the Think Python payload validates as a Book and the record
carries exactly the seven declared field names. -/
theorem c5_book_fields_exact_witness :
    ∃ r, model_validate BookSchema thinkPythonInput = Except.ok r ∧
      r.map Prod.fst =
        ["id", "title", "author", "publisher", "published_date",
         "page_count", "language"] :=
  c5_book_fields_exact.2 thinkPythonInput (by decide)

/-- C6: the BookUpdate shape declares exactly title, author, publisher,
page_count, language and excludes id and published_date: every record
produced by BookUpdate validation contains neither an id nor a
published_date field, so an update cannot set either. -/
theorem c6_update_excludes_id_and_date :
    BookUpdateSchema.map Prod.fst =
      ["title", "author", "publisher", "page_count", "language"] ∧
    ("id" ∉ BookUpdateSchema.map Prod.fst) ∧
    ("published_date" ∉ BookUpdateSchema.map Prod.fst) ∧
    ∀ m r, model_validate BookUpdateSchema m = Except.ok r →
      lookupField "id" r = none ∧ lookupField "published_date" r = none := by
  refine ⟨rfl, by decide, by decide, fun m r h => ?_⟩
  have hr := model_validate_ok_inv BookUpdateSchema m r h
  subst hr
  constructor
  · apply lookupField_eq_none
    intro q hq
    have hk := normalize_keys_subset BookUpdateSchema m q hq
    simp [BookUpdateSchema] at hk
    rcases hk with h1 | h1 | h1 | h1 | h1 <;> rw [h1] <;> decide
  · apply lookupField_eq_none
    intro q hq
    have hk := normalize_keys_subset BookUpdateSchema m q hq
    simp [BookUpdateSchema] at hk
    rcases hk with h1 | h1 | h1 | h1 | h1 <;> rw [h1] <;> decide

/-- C6 witness: a validated BookUpdate record has no id and no
published_date field. -/
theorem c6_update_excludes_id_and_date_witness :
    lookupField "id" (normalize BookUpdateSchema updateInput) = none ∧
    lookupField "published_date" (normalize BookUpdateSchema updateInput) = none :=
  c6_update_excludes_id_and_date.2.2.2 updateInput
    (normalize BookUpdateSchema updateInput) (by decide)

/-- C7: the BookCreate shape declares exactly the four text fields title,
author, isbn, description; any mapping supplying text values for these four
fields validates successfully as BookCreate. -/
theorem c7_create_fields :
    BookCreateModel =
      [("title", FieldType.str), ("author", FieldType.str),
       ("isbn", FieldType.str), ("description", FieldType.str)] ∧
    ∀ m, fieldsValid BookCreateModel m = true →
      ∃ r, model_validate BookCreateModel m = Except.ok r ∧
        r.map Prod.fst = ["title", "author", "isbn", "description"] := by
  refine ⟨rfl, fun m h => ⟨normalize BookCreateModel m,
    model_validate_ok_of_errs _ _ (fieldsValid_errs _ _ h), ?_⟩⟩
  rw [normalize_keys BookCreateModel m h]
  rfl

/-- C7 witness: the payload with title X, author Y, an ISBN and a description
validates successfully as BookCreate. -/
theorem c7_create_fields_witness :
    ∃ r, model_validate BookCreateModel createInput = Except.ok r ∧
      r.map Prod.fst = ["title", "author", "isbn", "description"] :=
  c7_create_fields.2 createInput (by decide)

/-- C8 counterexample: Book validation accepts a payload whose page_count is
the negative integer -5 and produces a record storing that negative value, so
validation does produce records with negative page_count, contrary to the
claim. -/
theorem c8_negative_page_count_accepted :
    model_validate BookSchema negBookInput =
      Except.ok (normalize BookSchema negBookInput) ∧
    lookupField "page_count" (normalize BookSchema negBookInput) =
      some (Value.int (-5)) := by
  constructor <;> decide

/-- C8 amended: the page_count field of Book and BookUpdate is declared as a
plain integer with no sign constraint; validation accepts any integer value,
negative included, and stores it unchanged. -/
theorem c8_page_count_unconstrained (n : Int) :
    model_validate BookSchema (bookInputPage n) =
      Except.ok (normalize BookSchema (bookInputPage n)) ∧
    lookupField "page_count" (normalize BookSchema (bookInputPage n)) =
      some (Value.int n) ∧
    model_validate BookUpdateSchema (updateInputPage n) =
      Except.ok (normalize BookUpdateSchema (updateInputPage n)) ∧
    lookupField "page_count" (normalize BookUpdateSchema (updateInputPage n)) =
      some (Value.int n) :=
  ⟨model_validate_ok_of_errs _ _ (fieldsValid_errs _ _ (by rfl)), by rfl,
   model_validate_ok_of_errs _ _ (fieldsValid_errs _ _ (by rfl)), by rfl⟩

/-- C9 counterexample: the id of a validated Book record can be reassigned:
attribute assignment succeeds and the stored id changes from 1 to 99, so
records are not immutable and an id does change after being set. -/
theorem c9_book_id_reassigned :
    lookupField "id" (normalize BookSchema thinkPythonInput) = some (Value.int 1) ∧
    lookupField "id" (setAttr (normalize BookSchema thinkPythonInput) "id"
      (Value.int 99)) = some (Value.int 99) := by
  constructor <;> decide

/-- C9 amended: records produced by Construct-and-validate are mutable: the
schema classes configure no immutability, so assigning to any field present
in a record succeeds and replaces its stored value (in particular a Book
record's id can be changed after construction). -/
theorem c9_records_mutable (r : List (String × Value)) (f : String) (v : Value)
    (h : f ∈ r.map Prod.fst) : lookupField f (setAttr r f v) = some v := by
  induction r with
  | nil => simp at h
  | cons p rest ih =>
    rw [List.map_cons, List.mem_cons] at h
    by_cases hp : p.1 = f
    · simp [setAttr, lookupField, hp]
    · have hf : f ∈ rest.map Prod.fst := by
        rcases h with h | h
        · exact absurd h.symm hp
        · exact h
      simp only [setAttr, if_neg hp, lookupField, hp, if_false]
      exact ih hf

/-- C9 amended witness: assignment to the id field of the validated Think
Python record succeeds and the record then stores the new id value 99. -/
theorem c9_records_mutable_witness :
    lookupField "id" (setAttr (normalize BookSchema thinkPythonInput) "id"
      (Value.int 77)) = some (Value.int 77) :=
  c9_records_mutable (normalize BookSchema thinkPythonInput) "id" (Value.int 77)
    (by decide)

/-- C10: unknown input keys are ignored: for any shape, appending entries
whose keys are not declared fields leaves validation of a contract-matching
mapping successful, and no unknown key appears in the resulting record or in
its serialization. -/
theorem c10_extra_keys_ignored (shape : List (String × FieldType))
    (m extra : List (String × Value))
    (hextra : ∀ q ∈ extra, q.1 ∉ shape.map Prod.fst)
    (hvalid : fieldsValid shape m = true) :
    model_validate shape (m ++ extra) = Except.ok (normalize shape m) ∧
    ∀ q ∈ model_dump (normalize shape m), q.1 ∈ shape.map Prod.fst := by
  have hcong : validateFields shape (m ++ extra) = validateFields shape m := by
    apply validateFields_congr
    intro p hp
    apply lookupField_append
    apply lookupField_eq_none
    intro q hq hqp
    exact hextra q hq (by rw [hqp]; exact List.mem_map.mpr ⟨p, hp, rfl⟩)
  constructor
  · have h1 := model_validate_ok_of_errs shape m (fieldsValid_errs shape m hvalid)
    unfold model_validate at h1 ⊢
    rw [hcong]
    exact h1
  · intro q hq
    exact normalize_keys_subset shape m q hq

/-- C10 witness: the Think Python payload extended with two unknown keys
still validates as a Book, and the record and its serialization carry only
declared field names. -/
theorem c10_extra_keys_ignored_witness :
    model_validate BookSchema (thinkPythonInput ++ extraInput) =
      Except.ok (normalize BookSchema thinkPythonInput) ∧
    ∀ q ∈ model_dump (normalize BookSchema thinkPythonInput),
      q.1 ∈ BookSchema.map Prod.fst :=
  c10_extra_keys_ignored BookSchema thinkPythonInput extraInput
    (by decide) (by decide)

end BookSchemas
